import Mathlib

/-!
Verification development for the nestjs-masterclass task-management API.

The embedding follows the repository's sources:
* `AuthService.signUp` / `AuthService.signIn` from `src/auth/users.repository.ts`
  (the file that holds the `AuthService` class);
* `TasksController` from the unnamed controller source (`@Controller('tasks')`,
  no guard declared, dispatch on `Object.keys(filtersDto).length > 0`);
* the in-memory `Task` model (`./task.model`: id, title, description, status —
  no owner field) that the controller imports;
* external collaborators (bcrypt, the JWT library, the Postgres store) are
  taken as parameters or modelled from the spec's contracts, as documented on
  each definition.
-/

namespace NestTask

/-! ### JavaScript runtime values

`AuthService.signUp` inspects the value thrown by `usersRepository.save` with
`error && typeof error === 'object' && 'code' in error && error.code === '23505'`.
We model just enough of the JavaScript value universe to state that test
faithfully, including `typeof null === 'object'` and the strictness of `===`
(a number never strictly equals a string). -/
inductive JSValue where
  | vNull
  | vUndefined
  | vBool (b : Bool)
  | vNum (n : Int)
  | vStr (s : String)
  | vObj (fields : List (String × JSValue))
deriving Repr

/-- JavaScript truthiness of a value (`error && ...`). -/
def truthy : JSValue → Bool
  | .vNull => false
  | .vUndefined => false
  | .vBool b => b
  | .vNum n => n != 0
  | .vStr s => !s.isEmpty
  | .vObj _ => true

/-- `typeof v === 'object'`; note `typeof null === 'object'` in JavaScript. -/
def typeofObject : JSValue → Bool
  | .vNull => true
  | .vObj _ => true
  | _ => false

/-- The JavaScript `'k' in v` property-existence test (own properties). -/
def hasProp (v : JSValue) (k : String) : Bool :=
  match v with
  | .vObj fields => fields.any (fun f => f.1 == k)
  | _ => false

/-- Property access `v.k`, yielding `undefined` when absent. -/
def getProp (v : JSValue) (k : String) : JSValue :=
  match v with
  | .vObj fields =>
    match fields.find? (fun f => f.1 == k) with
    | some f => f.2
    | none => .vUndefined
  | _ => .vUndefined

/-- Strict equality `v === s` against a string literal: true only when `v`
is a string with the same characters. -/
def strictEqString : JSValue → String → Bool
  | .vStr t, s => t == s
  | _, _ => false

/-- The catch-block test of `AuthService.signUp`:
`error && typeof error === 'object' && 'code' in error && error.code === '23505'`. -/
def isDuplicateUsernameError (e : JSValue) : Bool :=
  truthy e && typeofObject e && hasProp e "code" && strictEqString (getProp e "code") "23505"

/-! ### Users and the AuthService -/

/-- `User` entity as used by `AuthService`: `username` (unique) and `password`
(which stores the bcrypt hash, never the plaintext). -/
structure User where
  username : String
  password : String
deriving DecidableEq, Repr

/-- The NestJS exceptions thrown by `AuthService`. -/
inductive AuthError where
  | conflictException (message : String)
  | internalServerErrorException
  | unauthorizedException (message : Option String)
deriving DecidableEq, Repr

/-- `JwtPayload` interface: a single field, the username. -/
structure JwtPayload where
  username : String
deriving DecidableEq, Repr

/-- `AuthService.signUp` from `src/auth/users.repository.ts`.

The bcrypt salt generation is random, so the salt is a parameter; `bcrypt.hash`
is the abstract `hash` parameter; the Postgres-backed `usersRepository.save` is
the abstract `save` parameter which either returns the updated store or throws
a JavaScript value. The TypeScript method returns `Promise<void>` and mutates
the store; we embed it as returning the updated store. The catch block maps a
thrown error with `code === '23505'` to `ConflictException('Username already
exists')` and anything else to `InternalServerErrorException`. -/
def signUp (hash : String → String → String)
    (save : List User → User → Except JSValue (List User))
    (store : List User) (salt username password : String) :
    Except AuthError (List User) :=
  let hashedPassword := hash password salt
  let user : User := { username := username, password := hashedPassword }
  match save store user with
  | .ok newStore => .ok newStore
  | .error e =>
    if isDuplicateUsernameError e then
      .error (.conflictException "Username already exists")
    else
      .error .internalServerErrorException

/-- `usersRepository.findOne({ where: { username } })` over a list store. -/
def findOneByUsername (store : List User) (username : String) : Option User :=
  store.find? (fun u => u.username == username)

/-- `AuthService.signIn` from `src/auth/users.repository.ts`.

`bcrypt.compare` is the abstract `verify` parameter and `jwtService.sign` the
abstract `sign` parameter. The source reads
`if (user && (await bcrypt.compare(password, user.password))) { ... } else
{ throw new UnauthorizedException('Please check your login credentials'); }`:
the `else` is reached both when no user exists and when the compare fails, so
both failures produce the very same exception. -/
def signIn {Token : Type} (verify : String → String → Bool)
    (sign : JwtPayload → Token)
    (store : List User) (username password : String) :
    Except AuthError Token :=
  match findOneByUsername store username with
  | some user =>
    if verify password user.password then
      .ok (sign { username := username })
    else
      .error (.unauthorizedException (some "Please check your login credentials"))
  | none => .error (.unauthorizedException (some "Please check your login credentials"))

/-- Modelled from the spec: the Credential Store's `save` is external (a
Postgres table with a unique index on `username`; `@Column({ unique: true })`
in the tutorial's `user.entity.ts`). "Uniqueness of username is enforced by
the store's own constraint mechanism"; a duplicate insert surfaces as a thrown
driver error whose `code` is the string `'23505'`, exactly the shape the
`signUp` catch block tests for (its comment: `//duplicate username`). -/
def saveUnique (store : List User) (u : User) : Except JSValue (List User) :=
  if store.any (fun v => v.username == u.username) then
    .error (.vObj [("code", .vStr "23505")])
  else
    .ok (store ++ [u])

/-! ### JWT tokens and the access guard -/

/-- Modelled from the spec: the JWT library is external; per §4.2 a token is
"a signed, self-contained token encoding the claims and an expiry timestamp
(fixed window, e.g. 3600 seconds from issuance), signed with a process-wide
secret". We carry the payload, the expiry instant and the signing secret. -/
structure SignedToken where
  payload : JwtPayload
  exp : Nat
  secret : String
deriving DecidableEq, Repr

/-- Modelled from the spec (§4.2 `issue`): sign the payload with the
process-wide secret; expiry is 3600 seconds from issuance, matching the
tutorial's `JwtModule.register({ ... signOptions: { expiresIn: 3600 } })`. -/
def jwtSign (secret : String) (now : Nat) (payload : JwtPayload) : SignedToken :=
  { payload := payload, exp := now + 3600, secret := secret }

/-- Modelled from the spec (§4.2 `validate`): `Invalid` on a signature/secret
mismatch, `Expired` when the current time has reached the encoded expiry. -/
inductive TokenError where
  | invalid
  | expired
deriving DecidableEq, Repr

/-- Modelled from the spec (§4.2 `validate`): recover the claims of a token
signed with the same process-wide secret and not yet expired. -/
def jwtValidate (secret : String) (now : Nat) (t : SignedToken) :
    Except TokenError JwtPayload :=
  if t.secret != secret then .error .invalid
  else if decide (t.exp ≤ now) then .error .expired
  else .ok t.payload

/-- `JwtStrategy.validate` as written in the repository's
`TUTORIAL_DATABASE_AUTH.md` (Step 12, `src/auth/jwt-strategy.ts`): look the
claimed username up in the store; absent user → `UnauthorizedException()`. -/
def jwtStrategyValidate (store : List User) (payload : JwtPayload) :
    Except AuthError User :=
  match findOneByUsername store payload.username with
  | some user => .ok user
  | none => .error (.unauthorizedException none)

/-- The guard pipeline for a presented bearer token: signature/expiry check
(the JWT library) followed by `JwtStrategy.validate`; any token error is
surfaced as `UnauthorizedException`. -/
def resolveBearerToken (store : List User) (secret : String) (now : Nat)
    (t : SignedToken) : Except AuthError User :=
  match jwtValidate secret now t with
  | .ok payload => jwtStrategyValidate store payload
  | .error _ => .error (.unauthorizedException none)

/-! ### Tasks: model, service and controller -/

/-- `TaskStatus` enum. -/
inductive TaskStatus where
  | OPEN
  | IN_PROGRESS
  | DONE
deriving DecidableEq, Repr

/-- The `Task` model imported by `TasksController` (`./task.model`, the
in-memory shape: id, title, description, status). It carries no owner: the
prototype records nothing about which user created a task. -/
structure Task where
  id : String
  title : String
  description : String
  status : TaskStatus
deriving DecidableEq, Repr

/-- Modelled from the spec: `create-task.dto.ts` is not among the sources.
Title and description per the spec's `Create(title, description)`; an
optional `status` field is included so that "regardless of any status value
supplied in the creation input" is statable — `TasksService.createTask`
spreads the dto and then overwrites `status`, so a supplied value is ignored. -/
structure CreateTaskDto where
  title : String
  description : String
  status : Option TaskStatus := none
deriving DecidableEq, Repr

/-- `TasksService.getAllTasks` (tutorial in-memory service): return the whole
task array. No caller identity is involved anywhere in its signature. -/
def getAllTasks (tasks : List Task) : List Task :=
  tasks

/-- `TasksService.createTask` (tutorial in-memory service):
`{ id: uuid(), ...dto, status: TaskStatus.OPEN }` — the `status` key is
written after the dto spread, so the status is always OPEN. The generated
uuid is a parameter. Returns the created task and the updated array; the
created record has no owner field to set. -/
def createTask (tasks : List Task) (newId : String) (dto : CreateTaskDto) :
    Task × List Task :=
  let task : Task :=
    { id := newId, title := dto.title, description := dto.description,
      status := TaskStatus.OPEN }
  (task, tasks ++ [task])

/-- Whether `needle` occurs as a contiguous run inside `hay` (both lists of
characters). -/
def charListHasSub (needle : List Char) : List Char → Bool
  | [] => needle.isEmpty
  | c :: rest => needle.isPrefixOf (c :: rest) || charListHasSub needle rest

/-- ASCII lowercasing of a character (the usernames, titles and search terms
here are ASCII; `LOWER` in the tutorial's SQL acts the same on them). -/
def lowerChar (c : Char) : Char :=
  if 65 ≤ c.toNat && c.toNat ≤ 90 then Char.ofNat (c.toNat + 32) else c

/-- Case-insensitive substring test, as in the tutorial's query
`LOWER(task.title) LIKE LOWER(:search)` with `%search%`. -/
def containsCaseInsensitive (hay needle : String) : Bool :=
  charListHasSub (needle.toList.map lowerChar) (hay.toList.map lowerChar)

/-- Parse the `status` query-string value into the `TaskStatus` enum. -/
def parseTaskStatus : String → Option TaskStatus
  | "OPEN" => some TaskStatus.OPEN
  | "IN_PROGRESS" => some TaskStatus.IN_PROGRESS
  | "DONE" => some TaskStatus.DONE
  | _ => none

/-- Modelled from the spec: `TasksService.getTaskWithFilters` is not among the
sources (the controller calls it); per §4.5 List, the filter is "an optional
combination of `status` (exact match) and `search` (case-insensitive substring
match against title OR description)". The parsed query object is an
association list of query keys to values. No caller identity is involved. -/
def getTaskWithFilters (tasks : List Task) (filtersDto : List (String × String)) :
    List Task :=
  let status := (filtersDto.lookup "status").bind parseTaskStatus
  let search := filtersDto.lookup "search"
  let byStatus :=
    match status with
    | some s => tasks.filter (fun t => t.status == s)
    | none => tasks
  match search with
  | some q =>
    byStatus.filter (fun t =>
      containsCaseInsensitive t.title q || containsCaseInsensitive t.description q)
  | none => byStatus

/-- `Object.keys(filtersDto)` for the parsed query object (its keys are
distinct). -/
def objectKeys (filtersDto : List (String × String)) : List String :=
  filtersDto.map Prod.fst

/-- The branch condition of `TasksController.getTasks`:
`Object.keys(filtersDto).length > 0`. -/
def hasAnyFilterKey (filtersDto : List (String × String)) : Bool :=
  decide ((objectKeys filtersDto).length > 0)

/-- `TasksController.getTasks` (unnamed controller source): if any filter key
is present call `getTaskWithFilters`, otherwise `getAllTasks`. -/
def getTasks (tasks : List Task) (filtersDto : List (String × String)) :
    List Task :=
  if hasAnyFilterKey filtersDto then getTaskWithFilters tasks filtersDto
  else getAllTasks tasks

/-- `NotFoundException` thrown by the task service. -/
inductive TaskError where
  | notFoundException
deriving DecidableEq, Repr

/-- Modelled from the spec: `TasksService.getTaskById` is not among the
sources (the controller calls it); tutorial/in-memory shape: find by id,
`NotFoundException` when absent. Only the id selects the task — no owner
condition exists (the model has no owner). -/
def getTaskById (tasks : List Task) (id : String) : Except TaskError Task :=
  match tasks.find? (fun t => t.id == id) with
  | some t => .ok t
  | none => .error .notFoundException

/-- Modelled from the spec: `TasksService.removeTask` is not among the
sources; fails `NotFound` when no task has the id, otherwise removes the
record. Selection is by id alone. -/
def removeTask (tasks : List Task) (id : String) : Except TaskError (List Task) :=
  if tasks.any (fun t => t.id == id) then
    .ok (tasks.filter (fun t => t.id != id))
  else .error .notFoundException

/-- Modelled from the spec: `TasksService.updateTaskStatus` is not among the
sources; fails `NotFound` when no task has the id, otherwise overwrites the
status only. Selection is by id alone. -/
def updateTaskStatus (tasks : List Task) (id : String) (status : TaskStatus) :
    Except TaskError (Task × List Task) :=
  match tasks.find? (fun t => t.id == id) with
  | some t =>
    let updated : Task := { t with status := status }
    .ok (updated, tasks.map (fun u => if u.id == id then updated else u))
  | none => .error .notFoundException

/-! ### The HTTP boundary of the tasks controller -/

/-- The operations routed to `TasksController`. -/
inductive TasksOp where
  | list (filtersDto : List (String × String))
  | create (newId : String) (dto : CreateTaskDto)
  | getById (id : String)
  | updateStatus (id : String) (status : TaskStatus)
  | remove (id : String)
deriving Repr

/-- Client-visible outcomes of a tasks request. -/
inductive HttpResponse where
  | okTasks (tasks : List Task)
  | okTask (t : Task)
  | okUnit
  | notFound
  | unauthorized
deriving DecidableEq, Repr

/-- Modelled from the spec's routing boundary: a request reaches the
controller carrying an optional bearer token. `TasksController` in the
unnamed controller source declares no guard (`@UseGuards` does not appear),
so every handler body runs directly; the `auth` argument is never consulted
and no `unauthorized` response is ever produced. -/
def handleTasksRequest (tasks : List Task) (auth : Option SignedToken)
    (op : TasksOp) : HttpResponse :=
  match op with
  | .list filtersDto => .okTasks (getTasks tasks filtersDto)
  | .create newId dto => .okTask (createTask tasks newId dto).1
  | .getById id =>
    match getTaskById tasks id with
    | .ok t => .okTask t
    | .error _ => .notFound
  | .updateStatus id status =>
    match updateTaskStatus tasks id status with
    | .ok p => .okTask p.1
    | .error _ => .notFound
  | .remove id =>
    match removeTask tasks id with
    | .ok _ => .okUnit
    | .error _ => .notFound

/-! ### Concrete data used to evaluate the code -/

/-- A task created during alice's session. The model cannot record that: it
has no owner field. -/
def taskA : Task :=
  { id := "task-a", title := "buy milk", description := "2%",
    status := TaskStatus.OPEN }

/-- A task created during bob's session (again, no owner is recorded). -/
def taskB : Task :=
  { id := "task-b", title := "write report", description := "quarterly numbers",
    status := TaskStatus.DONE }

/-- A store holding one task from each of two distinct users' sessions. -/
def demoTasks : List Task := [taskA, taskB]

/-! ### Theorems -/

/-- C3: `signIn` with a username that has no stored user, and `signIn` with an
existing username whose stored hash does not verify against the supplied
password, both fail — with the identical `UnauthorizedException('Please check
your login credentials')`, indistinguishable to the caller. -/
theorem C3_signin_uniform_invalid_credentials {Token : Type}
    (verify : String → String → Bool) (sign : JwtPayload → Token)
    (store : List User) (username password : String)
    (h : findOneByUsername store username = none ∨
      ∃ u, findOneByUsername store username = some u ∧
        verify password u.password = false) :
    signIn verify sign store username password =
      .error (.unauthorizedException (some "Please check your login credentials")) := by
  unfold signIn
  rcases h with h | ⟨u, hu, hv⟩
  · rw [h]
  · rw [hu]
    simp [hv]

/-- Witness for C3: with an empty store (no such user), and with a store
holding alice but a failing hash verification (wrong password), `signIn`
returns the same `UnauthorizedException` in both cases. -/
theorem C3_signin_uniform_invalid_credentials_witness :
    signIn (fun _ _ => true) (jwtSign "topSecret52" 0)
        [] "alice" "pw" =
      .error (.unauthorizedException (some "Please check your login credentials")) ∧
    signIn (fun _ _ => false) (jwtSign "topSecret52" 0)
        [{ username := "alice", password := "storedhash" }] "alice" "wrong" =
      .error (.unauthorizedException (some "Please check your login credentials")) :=
  ⟨C3_signin_uniform_invalid_credentials _ _ _ _ _ (Or.inl rfl),
   C3_signin_uniform_invalid_credentials _ _ _ _ _
     (Or.inr ⟨{ username := "alice", password := "storedhash" }, rfl, rfl⟩)⟩

/-- C4: `signUp` against the uniqueness-enforcing store fails with
`ConflictException('Username already exists')` whenever the username is
already taken, for every password; a persistence failure whose thrown error
is not the duplicate-key error yields `InternalServerErrorException`; and
when the username is fresh, `signUp` succeeds (returning only the updated
store — no payload). -/
theorem C4_signup_error_mapping (hash : String → String → String)
    (store : List User) (salt username password : String) :
    (store.any (fun v => v.username == username) = true →
      signUp hash saveUnique store salt username password =
        .error (.conflictException "Username already exists")) ∧
    (∀ (save : List User → User → Except JSValue (List User)) (e : JSValue),
      save store { username := username, password := hash password salt } = .error e →
      isDuplicateUsernameError e = false →
      signUp hash save store salt username password =
        .error .internalServerErrorException) ∧
    (store.any (fun v => v.username == username) = false →
      signUp hash saveUnique store salt username password =
        .ok (store ++ [{ username := username, password := hash password salt }])) := by
  refine ⟨fun hdup => ?_, fun save e hsave hnot => ?_, fun hfresh => ?_⟩
  · simp [signUp, saveUnique, hdup, isDuplicateUsernameError, truthy, typeofObject,
      hasProp, getProp, strictEqString]
  · simp [signUp, hsave, hnot]
  · simp [signUp, saveUnique, hfresh]

/-- Witness for C4: the username "alice" being taken produces the conflict
(with a different password), a store throwing a plain string produces the
generic internal error, and a fresh username succeeds. -/
theorem C4_signup_error_mapping_witness :
    signUp (fun p _ => p) saveUnique [{ username := "alice", password := "h1" }]
        "s" "alice" "otherPassword" =
      .error (.conflictException "Username already exists") ∧
    signUp (fun p _ => p) (fun _ _ => .error (.vStr "connection reset"))
        [] "s" "bob" "pw" =
      .error .internalServerErrorException ∧
    signUp (fun p _ => p) saveUnique [] "s" "carol" "pw" =
      .ok [{ username := "carol", password := "pw" }] :=
  ⟨(C4_signup_error_mapping _ _ _ _ _).1 (by decide),
   (C4_signup_error_mapping _ _ _ _ _).2.1 _ _ rfl (by decide),
   (C4_signup_error_mapping _ _ _ _ _).2.2 (by decide)⟩

/-- C9: when persisting throws any value that is not an object carrying a
`code` property strictly equal to the string `'23505'` — a non-object, an
object without a `code` property, or an object whose `code` is the number
23505 (strict `===` against `'23505'` is false for a number) — `signUp` fails
with the payload-free `InternalServerErrorException`, never surfacing the raw
store error. -/
theorem C9_signup_generic_internal_error (hash : String → String → String)
    (save : List User → User → Except JSValue (List User))
    (store : List User) (salt username password : String) (e : JSValue)
    (hsave : save store { username := username, password := hash password salt } =
      .error e)
    (hshape : typeofObject e = false ∨ hasProp e "code" = false ∨
      strictEqString (getProp e "code") "23505" = false) :
    signUp hash save store salt username password =
      .error .internalServerErrorException := by
  have hnot : isDuplicateUsernameError e = false := by
    unfold isDuplicateUsernameError
    rcases hshape with h | h | h <;> simp [h]
  simp [signUp, hsave, hnot]

/-- Witness for C9: a thrown plain string, a thrown object with no `code`
property, and a thrown object whose `code` is the number 23505 all map to
`InternalServerErrorException`. -/
theorem C9_signup_generic_internal_error_witness :
    signUp (fun p _ => p) (fun _ _ => .error (.vStr "boom")) [] "s" "u" "p" =
      .error .internalServerErrorException ∧
    signUp (fun p _ => p) (fun _ _ => .error (.vObj [("message", .vStr "x")]))
        [] "s" "u" "p" =
      .error .internalServerErrorException ∧
    signUp (fun p _ => p) (fun _ _ => .error (.vObj [("code", .vNum 23505)]))
        [] "s" "u" "p" =
      .error .internalServerErrorException :=
  ⟨C9_signup_generic_internal_error _ _ _ _ _ _ _ rfl (Or.inl rfl),
   C9_signup_generic_internal_error _ _ _ _ _ _ _ rfl (Or.inr (Or.inl rfl)),
   C9_signup_generic_internal_error _ _ _ _ _ _ _ rfl (Or.inr (Or.inr rfl))⟩

/-- Helper: looking a username up in a store that does not contain it,
extended with a user carrying exactly that username, finds the new user. -/
theorem findOneByUsername_append_fresh (store : List User) (u : User)
    (username : String)
    (hfresh : store.any (fun v => v.username == username) = false)
    (hu : u.username = username) :
    findOneByUsername (store ++ [u]) username = some u := by
  induction store with
  | nil => simp [findOneByUsername, List.find?, hu]
  | cons v rest ih =>
    rw [List.any_cons, Bool.or_eq_false_iff] at hfresh
    have ih2 := ih hfresh.2
    unfold findOneByUsername at ih2 ⊢
    rw [List.cons_append, List.find?_cons_of_neg _ (by simp [hfresh.1]), ih2]

/-- Helper: a user found by username carries that username. -/
theorem findOneByUsername_username {store : List User} {username : String}
    {u : User} (h : findOneByUsername store username = some u) :
    u.username = username := by
  have hp := List.find?_some h
  simpa using hp

/-- C5: for every hasher satisfying the bcrypt contract
(`verify p (hash p s) = true`) and every username not yet stored, `signUp`
succeeds, and `signIn` on the resulting store with the same username and
password succeeds, returning the bearer token signed for that username: the
hash stored at signup verifies against the original password at signin. -/
theorem C5_signup_signin_roundtrip {Token : Type}
    (hash : String → String → String) (verify : String → String → Bool)
    (sign : JwtPayload → Token)
    (hbcrypt : ∀ p s, verify p (hash p s) = true)
    (store : List User) (salt username password : String)
    (hfresh : store.any (fun v => v.username == username) = false) :
    ∃ store2,
      signUp hash saveUnique store salt username password = .ok store2 ∧
      signIn verify sign store2 username password =
        .ok (sign { username := username }) := by
  refine ⟨store ++ [{ username := username, password := hash password salt }],
    ?_, ?_⟩
  · simp [signUp, saveUnique, hfresh]
  · have hfind := findOneByUsername_append_fresh store
      { username := username, password := hash password salt } username hfresh rfl
    unfold signIn
    rw [hfind]
    simp [hbcrypt]

/-- Witness for C5: a concrete hasher (identity hash, equality verification)
satisfies the contract; signing up "alice" with password "Passw0rd" on an
empty store and then signing in with the same credentials yields a token. -/
theorem C5_signup_signin_roundtrip_witness :
    ∃ store2,
      signUp (fun p _ => p) saveUnique [] "somesalt" "alice" "Passw0rd" =
        .ok store2 ∧
      signIn (fun p h => p == h) (jwtSign "topSecret52" 0) store2
          "alice" "Passw0rd" =
        .ok (jwtSign "topSecret52" 0 { username := "alice" }) :=
  C5_signup_signin_roundtrip (fun p _ => p) (fun p h => p == h)
    (jwtSign "topSecret52" 0) (fun p s => by simp) [] "somesalt" "alice"
    "Passw0rd" (by decide)

/-- C6: a token issued by a successful `signIn` carries exactly the one-field
payload `{ username }` for the username that signed in; presented to the
guard pipeline (JWT validation then `JwtStrategy.validate`) before it
expires, it resolves to a stored user with that same username. -/
theorem C6_token_single_claim_resolves (verify : String → String → Bool)
    (secret : String) (now later : Nat) (store : List User)
    (username password : String) (t : SignedToken)
    (hsign : signIn verify (jwtSign secret now) store username password = .ok t)
    (hlive : later < t.exp) :
    t.payload = { username := username } ∧
    ∃ u, resolveBearerToken store secret later t = .ok u ∧
      u.username = username := by
  unfold signIn at hsign
  rcases hfind : findOneByUsername store username with _ | u
  · rw [hfind] at hsign
    exact absurd hsign (by simp)
  · rw [hfind] at hsign
    rcases hv : verify password u.password with _ | _
    · simp [hv] at hsign
    · simp [hv] at hsign
      subst hsign
      refine ⟨rfl, u, ?_, findOneByUsername_username hfind⟩
      unfold resolveBearerToken jwtValidate
      simp only [jwtSign] at hlive ⊢
      rw [if_neg (by simp), if_neg (by simpa using Nat.not_le.mpr hlive)]
      unfold jwtStrategyValidate
      simp [hfind]

/-- Witness for C6: alice signs in against a store holding her record; the
issued token's payload is `{ username := "alice" }` and, presented at time 5
(before expiry at 3600), resolves to her stored user. -/
theorem C6_token_single_claim_resolves_witness :
    (jwtSign "topSecret52" 0 { username := "alice" }).payload =
      { username := "alice" } ∧
    ∃ u, resolveBearerToken [{ username := "alice", password := "storedhash" }]
        "topSecret52" 5 (jwtSign "topSecret52" 0 { username := "alice" }) =
        .ok u ∧ u.username = "alice" :=
  C6_token_single_claim_resolves (fun _ _ => true) "topSecret52" 0 5
    [{ username := "alice", password := "storedhash" }] "alice" "anyPw"
    (jwtSign "topSecret52" 0 { username := "alice" }) rfl (by decide)

/-- C1 (code evaluated at the failing input): the task read, update and
delete operations select by task id alone — their signatures carry no caller
identity and the `Task` model records no owner — so a request made by any
user (here: a user other than the one whose session created `taskA`)
succeeds on `task-a` instead of failing with `NotFound`, and the same holds
for update and delete. -/
theorem C1_no_owner_scoping_in_code :
    getTaskById demoTasks "task-a" = .ok taskA ∧
    updateTaskStatus demoTasks "task-a" TaskStatus.DONE =
      .ok ({ taskA with status := TaskStatus.DONE },
        [{ taskA with status := TaskStatus.DONE }, taskB]) ∧
    removeTask demoTasks "task-a" = .ok [taskB] := by
  refine ⟨rfl, rfl, rfl⟩

/-- C2 (code evaluated at the failing input): `TasksController` declares no
guard, so the response never depends on the presented token — a request with
no bearer token, and one with a token signed under the wrong secret, both
run the handler and return its result rather than an Unauthenticated
rejection. -/
theorem C2_no_guard_handler_always_runs (tasks : List Task)
    (auth : Option SignedToken) (op : TasksOp) :
    handleTasksRequest tasks auth op = handleTasksRequest tasks none op ∧
    handleTasksRequest demoTasks none (.list []) = .okTasks demoTasks ∧
    handleTasksRequest demoTasks
        (some (jwtSign "wrongSecret" 0 { username := "mallory" }))
        (.getById "task-a") =
      .okTask taskA := by
  refine ⟨rfl, rfl, ?_⟩
  decide

/-- C7 (code evaluated at the failing input): every created task has status
OPEN — the service overwrites any status supplied in the creation input —
and the created record is fully determined by the generated id and the
dto's title and description: no owner is recorded (the `Task` model has no
owner field and the controller passes no caller identity). -/
theorem C7_create_status_forced_open_no_owner (tasks : List Task)
    (newId : String) (dto : CreateTaskDto) :
    (createTask tasks newId dto).1.status = TaskStatus.OPEN ∧
    (createTask tasks newId dto).1 =
      { id := newId, title := dto.title, description := dto.description,
        status := TaskStatus.OPEN } ∧
    (createTask demoTasks "task-c"
        { title := "buy milk", description := "2%",
          status := some TaskStatus.DONE }).1 =
      { id := "task-c", title := "buy milk", description := "2%",
        status := TaskStatus.OPEN } :=
  ⟨rfl, rfl, rfl⟩

/-- C8 (code evaluated at the failing input): the list operation carries no
caller identity, so with no filter it returns every task in the store —
including tasks created in other users' sessions — and with filters it
applies only the status exact-match and case-insensitive title-or-description
substring search over the whole store. -/
theorem C8_list_filters_unscoped :
    getTasks demoTasks [] = [taskA, taskB] ∧
    getTasks demoTasks [("status", "DONE")] = [taskB] ∧
    getTasks demoTasks [("search", "MILK")] = [taskA] ∧
    getTasks demoTasks [("search", "quarterly")] = [taskB] ∧
    getTasks demoTasks [("status", "OPEN"), ("search", "milk")] = [taskA] := by
  refine ⟨rfl, ?_, ?_, ?_, ?_⟩ <;> decide

/-- C10: `TasksController.getTasks` dispatches to the filtered query exactly
when the parsed filter object has at least one key — whatever the key — and
to the return-all path only when it is empty; in particular an object with
only an unrecognized key is still routed to the filtered query. -/
theorem C10_dispatch_on_any_key (tasks : List Task)
    (filtersDto : List (String × String)) :
    (getTasks tasks filtersDto =
      if hasAnyFilterKey filtersDto then getTaskWithFilters tasks filtersDto
      else getAllTasks tasks) ∧
    (hasAnyFilterKey filtersDto = true ↔ filtersDto ≠ []) ∧
    hasAnyFilterKey [("unrecognizedKey", "1")] = true ∧
    getTasks demoTasks [("unrecognizedKey", "1")] =
      getTaskWithFilters demoTasks [("unrecognizedKey", "1")] := by
  refine ⟨rfl, ?_, by decide, rfl⟩
  cases filtersDto <;> simp [hasAnyFilterKey, objectKeys]

end NestTask
